import Mathlib

/-!
Verification of the data-processor service in
src/applications/data-processor/main.py.

The service is a FastAPI application; the two handlers the claims concern
are process_data (POST /api/process) and get_task_status
(GET /api/tasks/task_id).  Both handlers are pure: the module keeps no
task registry and mutates no module-level state, so each handler is
embedded as a Lean function of its inputs.  The wall-clock reading
int(time.time()) performed by process_data is made an explicit argument
now, holding the already-truncated integer number of seconds.
-/

namespace DataProcessor

/-- Parameter map standing for the field parameters : Dict[str, Any] of the
pydantic model.  Neither handler ever reads the values, and the claims only
use integer-valued parameters, so values are taken to be integers. -/
abbrev Params := List (String × Int)

/-- Embeds the pydantic model ProcessingRequest of main.py with fields
operation_type : str, data_source : str, parameters : Dict[str, Any]
(defaulting to the empty dict). -/
structure ProcessingRequest where
  operation_type : String
  data_source : String
  parameters : Params := []
  deriving DecidableEq, Repr

/-- The JSON object built and returned by the POST /api/process handler. -/
structure ProcessResponse where
  task_id : String
  status : String
  message : String
  operation_type : String
  data_source : String
  deriving DecidableEq, Repr

/-- Embeds process_data of main.py.  The argument now is the value of
int(time.time()) read at the moment of the call.  The handler builds
task_id as the string task_ followed by the decimal rendering of now, and
returns the JSON object below; it performs no validation, raises no
HTTPException, and touches no shared state. -/
def process_data (now : Int) (request : ProcessingRequest) : ProcessResponse :=
  { task_id := "task_" ++ toString now
    status := "processing"
    message := "Started " ++ request.operation_type ++ " processing"
    operation_type := request.operation_type
    data_source := request.data_source }

/-- The JSON object built and returned by the GET /api/tasks handler. -/
structure TaskStatusResponse where
  task_id : String
  status : String
  result : String
  deriving DecidableEq, Repr

/-- Embeds get_task_status of main.py: for any path parameter task_id it
returns status completed and the result string below; no store is consulted
and the id is not validated in any way. -/
def get_task_status (task_id : String) : TaskStatusResponse :=
  { task_id := task_id
    status := "completed"
    result := "Processing completed for " ++ task_id }

/-- HTTP view of the POST handler: the Python function returns normally on
every parsed request (it raises no HTTPException), so FastAPI answers with
HTTP code 200 and the handler's JSON body. -/
def process_http (now : Int) (request : ProcessingRequest) :
    Nat × ProcessResponse :=
  (200, process_data now request)

/-- One incoming call of the two task endpoints.  A POST carries the clock
value read during its handling. -/
inductive ApiCall where
  | post : Int → ProcessingRequest → ApiCall
  | getTask : String → ApiCall
  deriving DecidableEq, Repr

/-- A response of either task endpoint. -/
inductive ApiResponse where
  | processed : ProcessResponse → ApiResponse
  | statusOf : TaskStatusResponse → ApiResponse
  deriving DecidableEq, Repr

/-- Serving one call.  main.py keeps no module-level task state, so the
response is a function of the call alone. -/
def serve : ApiCall → ApiResponse
  | .post now request => .processed (process_data now request)
  | .getTask task_id => .statusOf (get_task_status task_id)

/-- Serving a whole sequence of calls in arrival order. -/
def serveTrace (calls : List ApiCall) : List ApiResponse :=
  calls.map serve

/-- C1: the id task_ghost was never returned by any submission, yet the
status lookup answers a full task record with status completed instead of a
NotFound error; the claim that unknown ids yield NotFound fails on the
code. -/
theorem C1_unknown_id_reported_completed :
    get_task_status "task_ghost" =
      ⟨"task_ghost", "completed", "Processing completed for task_ghost"⟩ := by
  decide

/-- C2: submitting with operation_type equal to the empty string at clock
second 100 is accepted: the handler answers a success body carrying a fresh
task id and status processing instead of failing with InvalidRequest. -/
theorem C2_empty_operation_type_accepted :
    process_data 100 ⟨"", "source-x", []⟩ =
      ⟨"task_100", "processing", "Started  processing", "", "source-x"⟩ := by
  decide

/-- C3: two distinct submissions handled within the same wall-clock second
100 receive the same task id task_100, not distinct ids. -/
theorem C3_same_second_ids_collide :
    (process_data 100 ⟨"resize", "a", []⟩).task_id =
      (process_data 100 ⟨"encode", "b", []⟩).task_id ∧
    (process_data 100 ⟨"resize", "a", []⟩).task_id = "task_100" := by
  decide

/-- C4: a task submitted at second 100 and polled immediately is observed
directly in the terminal status completed: the first observed status is
neither pending nor running, so the walk skips Pending. -/
theorem C4_first_poll_is_terminal :
    (get_task_status (process_data 100 ⟨"resize", "a", []⟩).task_id).status
        = "completed" ∧
    (get_task_status (process_data 100 ⟨"resize", "a", []⟩).task_id).status
        ≠ "pending" ∧
    (get_task_status (process_data 100 ⟨"resize", "a", []⟩).task_id).status
        ≠ "running" := by
  decide

/-- C5: on the InvalidRequest input with empty operation_type the HTTP
layer answers 200 with a success body, never 400, so the claim that 400 is
returned exactly on InvalidRequest fails on the code. -/
theorem C5_invalid_request_gets_200 :
    (process_http 100 ⟨"", "x", []⟩).1 = 200 ∧
    (process_http 100 ⟨"", "x", []⟩).1 ≠ 400 ∧
    (process_http 100 ⟨"", "x", []⟩).2.status = "processing" := by
  decide

/-- C6: for every task id string supplied, whether or not it was ever
issued by a submission, the task-status lookup reports the status completed
and echoes the id back, validating nothing. -/
theorem C6_every_lookup_reports_completed (task_id : String) :
    (get_task_status task_id).status = "completed" ∧
    (get_task_status task_id).task_id = task_id :=
  ⟨rfl, rfl⟩

/-- C7: every submission's task id is fabricated from the current wall
clock: it equals the string task_ followed by the integer number of seconds
now read at the moment of the call. -/
theorem C7_task_id_is_clock_fabricated (now : Int)
    (request : ProcessingRequest) :
    (process_data now request).task_id = "task_" ++ toString now :=
  rfl

/-- C8: submitting the echo task at second 100 and polling its id yields
the fixed string result Processing completed for task_100, not the
submitted parameters n = 3; the result is identical whatever parameters
were submitted, so the claim fails on the code. -/
theorem C8_echo_result_is_fixed_string :
    (get_task_status
        (process_data 100 ⟨"echo", "x", [("n", 3)]⟩).task_id).result
      = "Processing completed for task_100" ∧
    get_task_status (process_data 100 ⟨"echo", "x", [("n", 3)]⟩).task_id
      = get_task_status (process_data 100 ⟨"echo", "x", [("n", 7)]⟩).task_id := by
  decide

/-- C9: the task-status lookup is deterministic in its input: serving
GET /api/tasks for an id always yields the one same response, with status
completed and result Processing completed for followed by the id, so any
two calls with the same id return identical responses. -/
theorem C9_lookup_deterministic (task_id : String) :
    serve (.getTask task_id) =
      .statusOf ⟨task_id, "completed", "Processing completed for " ++ task_id⟩ :=
  rfl

/-- C10: no endpoint reads or writes shared mutable task state: in any
trace, the response to a GET is get_task_status of its own id regardless of
the calls before or after it, and the response to a POST is process_data of
its own body and clock value regardless of the calls before or after it. -/
theorem C10_handlers_are_stateless (pre suf : List ApiCall)
    (task_id : String) (now : Int) (request : ProcessingRequest) :
    serveTrace (pre ++ .getTask task_id :: suf) =
      serveTrace pre ++ .statusOf (get_task_status task_id) :: serveTrace suf ∧
    serveTrace (pre ++ .post now request :: suf) =
      serveTrace pre ++ .processed (process_data now request) :: serveTrace suf := by
  constructor <;> simp [serveTrace, serve]

end DataProcessor
